import Mathlib

/-
Verification development for the SimpleLinearRegression repository.

The code under scrutiny is the Flask endpoint `predict` in PLR/app.py
(polynomial regression service), the endpoint `predict` in app.py
(plain regression service), and the tkinter callback
`SalaryPredictorUI.on_experience_change` in PLR/app_ui.py.

Modelling conventions:
- Python floats are modelled exactly: a finite value is a rational, and
  the three IEEE special values (+inf, -inf, nan) are separate
  constructors.  Rounding of decimal literals to binary64 is not
  modelled; all concrete values in the claims are exactly representable.
- JSON payloads decoded by Flask's `request.get_json()` are modelled by
  the inductive `Json`.  Python's `json.loads` accepts the literals
  `NaN`, `Infinity` and `-Infinity`, so `Json.num` carries a `PyFloat`.
- Python exceptions raised inside the endpoint's `try` block are
  modelled by `PyExc`; the `except` clauses of PLR/app.py map a
  `KeyError` to the 400 response "Missing required key", a `ValueError`
  to "Invalid numeric value", and everything else to the generic 400
  response "Invalid input format or prediction error".
- The pickled transformer and model are opaque injected capabilities
  (`Caps`): `transform` maps the single feature to the row
  `poly.transform([[x]])[0]`, and `predict` maps that row to the list
  of outputs of `model.predict`; an output element is either a numeric
  scalar or a value on which `float()` raises (`PyVal.nonNumeric`).
-/

namespace PLR

/-- A Python float: exact rational for finite values plus the IEEE
special values.  `float("nan")`, `float("inf")` etc. produce the
special constructors. -/
inductive PyFloat where
  | finite (q : ℚ)
  | posInf
  | negInf
  | nan
deriving DecidableEq

/-- The Python exceptions that can escape the body of the `try` block
in the endpoints (before being caught by the `except` clauses). -/
inductive PyExc where
  | keyError (k : String)
  | valueError
  | typeError
  | indexError
deriving DecidableEq

/-- A JSON value as decoded by `request.get_json()` / `json.loads`. -/
inductive Json where
  | null
  | bool (b : Bool)
  | num (x : PyFloat)
  | str (s : String)
  | arr (elems : List Json)
  | obj (fields : List (String × Json))

/-- ASCII whitespace stripped by `str.strip()` and by `float(str)`. -/
def isPyWs (c : Char) : Bool :=
  c = ' ' || c = '\t' || c = '\n' || c = '\r' || c = '\x0b' || c = '\x0c'

/-- Strip whitespace from both ends of a character list (`str.strip()`). -/
def stripWs (cs : List Char) : List Char :=
  ((cs.dropWhile isPyWs).reverse.dropWhile isPyWs).reverse

/-- Tail of a CPython `digitpart`: digits, with single underscores
allowed between digits ("1_0" is valid, "1__0" and "1_" are not). -/
def dpAux : List Char → Bool
  | [] => true
  | c :: rest =>
    if c = '_' then
      match rest with
      | c2 :: rest2 => c2.isDigit && dpAux rest2
      | [] => false
    else c.isDigit && dpAux rest

/-- A CPython `digitpart`: non-empty, starts with a digit, single
underscores only between digits. -/
def digitpartOk (cs : List Char) : Bool :=
  match cs with
  | [] => false
  | c :: rest => c.isDigit && dpAux rest

/-- Numeric value of a digit group, ignoring underscores. -/
def digitsVal (cs : List Char) : ℕ :=
  cs.foldl (fun acc c => if c = '_' then acc else acc * 10 + (c.toNat - '0'.toNat)) 0

/-- Number of actual digits in a digit group (underscores excluded). -/
def digitsCount (cs : List Char) : ℕ :=
  (cs.filter (fun c => c ≠ '_')).length

def pow10 (n : ℕ) : ℚ := (10 : ℚ) ^ n

/-- Scale a rational by a (possibly negative) power of ten. -/
def scale (q : ℚ) (e : ℤ) : ℚ :=
  match e with
  | .ofNat n => q * pow10 n
  | .negSucc n => q / pow10 (n + 1)

/-- Split a character list at the first character satisfying `p`;
returns the part before and, when a split happened, the part after. -/
def splitOnChar (p : Char → Bool) : List Char → List Char × Option (List Char)
  | [] => ([], none)
  | c :: rest =>
    if p c then ([], some rest)
    else
      let r := splitOnChar p rest
      (c :: r.1, r.2)

/-- Validity of the mantissa of a CPython float literal:
`digitpart | [digitpart] "." [digitpart]` with at least one digit. -/
def mantissaOk (cs : List Char) : Bool :=
  let s := splitOnChar (fun c => c = '.') cs
  match s.2 with
  | none => digitpartOk s.1
  | some fp =>
    !(fp.any (fun c => c = '.')) &&
      (s.1.isEmpty || digitpartOk s.1) &&
      (fp.isEmpty || digitpartOk fp) &&
      !(s.1.isEmpty && fp.isEmpty)

/-- Exact value of a valid mantissa. -/
def mantissaVal (cs : List Char) : ℚ :=
  let s := splitOnChar (fun c => c = '.') cs
  match s.2 with
  | none => (digitsVal s.1 : ℚ)
  | some fp => (digitsVal s.1 : ℚ) + (digitsVal fp : ℚ) / pow10 (digitsCount fp)

/-- Validity of the exponent part following `e`/`E`. -/
def expOk (cs : List Char) : Bool :=
  match cs with
  | [] => false
  | c :: rest =>
    if c = '+' || c = '-' then digitpartOk rest else digitpartOk (c :: rest)

/-- Signed integer value of the exponent part. -/
def expVal (cs : List Char) : ℤ :=
  match cs with
  | [] => 0
  | c :: rest =>
    if c = '-' then -(digitsVal rest : ℤ)
    else if c = '+' then (digitsVal rest : ℤ)
    else (digitsVal (c :: rest) : ℤ)

/-- Validity of an unsigned CPython float literal without inf/nan:
`mantissa [("e"|"E") exponent]`. -/
def numberOk (cs : List Char) : Bool :=
  let s := splitOnChar (fun c => c = 'e' || c = 'E') cs
  match s.2 with
  | none => mantissaOk s.1
  | some ex => mantissaOk s.1 && expOk ex

/-- Exact value of a valid unsigned float literal. -/
def numberVal (cs : List Char) : ℚ :=
  let s := splitOnChar (fun c => c = 'e' || c = 'E') cs
  match s.2 with
  | none => mantissaVal s.1
  | some ex => scale (mantissaVal s.1) (expVal ex)

/-- Negation of a Python float (note `float("-nan")` is nan). -/
def negPF : PyFloat → PyFloat
  | .finite q => .finite (-q)
  | .posInf => .negInf
  | .negInf => .posInf
  | .nan => .nan

/-- Parse an unsigned float body: `inf`, `infinity`, `nan` (already
lower-cased) or a numeric literal. -/
def parseFloatCore (cs : List Char) : Option PyFloat :=
  if cs = "inf".data || cs = "infinity".data then some .posInf
  else if cs = "nan".data then some .nan
  else if numberOk cs then some (.finite (numberVal cs)) else none

/-- Python's `float(s)` on a string: strip whitespace, optional sign,
then `inf`/`infinity`/`nan` (case-insensitive) or a decimal literal.
Returns `none` when `float()` raises `ValueError`.  (Non-ASCII digits
and non-ASCII whitespace, which CPython also accepts, are not
modelled; no claim involves them.) -/
def parseFloatStr (s : String) : Option PyFloat :=
  match stripWs (s.data.map Char.toLower) with
  | [] => none
  | c :: rest =>
    if c = '+' then parseFloatCore rest
    else if c = '-' then (parseFloatCore rest).map negPF
    else parseFloatCore (c :: rest)

/-- Python's `float(v)` on a decoded JSON value (PLR/app.py line 62's
`float(data['YearsExperience'])`): numbers pass through, booleans are
ints (True = 1.0, False = 0.0), strings are parsed (`ValueError` on
failure), and null/list/dict raise `TypeError`. -/
def pyFloatOf : Json → Except PyExc PyFloat
  | .num x => .ok x
  | .bool b => .ok (.finite (if b then 1 else 0))
  | .str s =>
    match parseFloatStr s with
    | some x => .ok x
    | none => .error .valueError
  | .null => .error .typeError
  | .arr _ => .error .typeError
  | .obj _ => .error .typeError

/-- Whether `needle` is a prefix of `hay` (for substring membership). -/
def startsWithL : List Char → List Char → Bool
  | [], _ => true
  | _ :: _, [] => false
  | a :: as, b :: bs => a = b && startsWithL as bs

/-- Whether `needle` occurs contiguously inside `hay` (Python's
`sub in str`). -/
def strHasSub (needle : List Char) : List Char → Bool
  | [] => needle.isEmpty
  | c :: rest => startsWithL needle (c :: rest) || strHasSub needle rest

/-- Python's `k in d` for a decoded JSON value `d` and string `k`:
key membership for dicts, element membership for lists, substring test
for strings, `TypeError` for the non-iterable values. -/
def pyContains (d : Json) (k : String) : Except PyExc Bool :=
  match d with
  | .obj fields => .ok (fields.lookup k).isSome
  | .arr elems => .ok (elems.any (fun j => match j with | .str s => s = k | _ => false))
  | .str s => .ok (strHasSub k.data s.data)
  | .null => .error .typeError
  | .bool _ => .error .typeError
  | .num _ => .error .typeError

/-- Python's `d[k]` for a decoded JSON value `d` and string key `k`:
dict lookup raising `KeyError` when absent; every other value raises
`TypeError` for a string subscript. -/
def pySubscript (d : Json) (k : String) : Except PyExc Json :=
  match d with
  | .obj fields =>
    match fields.lookup k with
    | some v => .ok v
    | none => .error (.keyError k)
  | _ => .error .typeError

/-- Nested-envelope unwrapping, PLR/app.py lines 57-58:
`if 'data' in data and isinstance(data['data'], list) and
len(data['data']) > 0: data = data['data'][0]`.
Exceptions from `in` / subscripting propagate (short-circuit `and`
evaluates `data['data']` only when `'data' in data` was true). -/
def unwrapEnvelope (data0 : Json) : Except PyExc Json :=
  match pyContains data0 "data" with
  | .error e => .error e
  | .ok false => .ok data0
  | .ok true =>
    match pySubscript data0 "data" with
    | .error e => .error e
    | .ok dv =>
      match dv with
      | .arr (first :: _) => .ok first
      | _ => .ok data0

/-- The feature-normalising slice of PLR/app.py's `predict`
(lines 57-62): envelope unwrapping, lookup of `'YearsExperience'`,
then `float()` coercion of its value. -/
def normalize (data0 : Json) : Except PyExc PyFloat :=
  match unwrapEnvelope data0 with
  | .error e => .error e
  | .ok data =>
    match pySubscript data "YearsExperience" with
    | .error e => .error e
    | .ok v => pyFloatOf v

/-- The direct payload shape `{"YearsExperience": v}`. -/
def reqObj (v : Json) : Json :=
  .obj [("YearsExperience", v)]

/-- An element of the array returned by `model.predict`: either a
numeric scalar, or a value (e.g. a nested array of size > 1) on which
`float()` raises. -/
inductive PyVal where
  | num (x : PyFloat)
  | nonNumeric
deriving DecidableEq

/-- The two injected capabilities of PLR/app.py: the fitted
`PolynomialFeatures` transformer (row `poly.transform([[x]])[0]`) and
the trained model (`model.predict` on that row). -/
structure Caps where
  transform : PyFloat → List PyFloat
  predict : List PyFloat → List PyVal

/-- `float(prediction)` on a model output element (PLR/app.py
line 81). -/
def coerceFloat : PyVal → Except PyExc PyFloat
  | .num x => .ok x
  | .nonNumeric => .error .typeError

/-- The prediction-pipeline slice of PLR/app.py's `predict`
(lines 66-82): build the 1x1 row, transform, predict, take element 0
(`IndexError` when empty), coerce to float, and pair the echoed
feature with the predicted salary. -/
def plrPipeline (caps : Caps) (experience : PyFloat) :
    Except PyExc (PyFloat × PyFloat) :=
  match caps.predict (caps.transform experience) with
  | [] => .error .indexError
  | v :: _ =>
    match coerceFloat v with
    | .error e => .error e
    | .ok salary => .ok (experience, salary)

/-- Which 400 response body the `except` clauses of PLR/app.py
produce. -/
inductive ErrBranch where
  | notJson
  | missingKey (k : String)
  | invalidNumeric
  | genericErr
deriving DecidableEq

/-- The HTTP response of PLR/app.py's `predict`: on success a JSON
body `{'YearsExperience': experience, 'PredictedSalary':
float(prediction)}` (status 200), otherwise `{'error': ...}` with
status 400. -/
inductive Response where
  | success (yearsExperience predictedSalary : PyFloat)
  | failure (branch : ErrBranch)
deriving DecidableEq

/-- HTTP status code of a response. -/
def status : Response → ℕ
  | .success _ _ => 200
  | .failure _ => 400

/-- Mapping of an escaped exception to the `except` clause that
catches it: `KeyError` -> "Missing required key", `ValueError` ->
"Invalid numeric value", anything else -> the generic clause. -/
def excBranch : PyExc → ErrBranch
  | .keyError k => .missingKey k
  | .valueError => .invalidNumeric
  | .typeError => .genericErr
  | .indexError => .genericErr

/-- The whole `predict` endpoint of PLR/app.py (lines 48-93).
`payload = none` models `request.get_json()` returning `None`
(non-JSON request), answered with the explicit 400 at line 53. -/
def plrPredict (caps : Caps) (payload : Option Json) : Response :=
  match payload with
  | none => .failure .notJson
  | some d =>
    match normalize d with
    | .error exc => .failure (excBranch exc)
    | .ok e =>
      match plrPipeline caps e with
      | .error exc => .failure (excBranch exc)
      | .ok (a, s) => .success a s

/-- The injected model of the plain app.py service: `model.predict`
applied to `np.array([[experience]])` built from the *raw* JSON value
(no `float()` cast there). -/
structure SimpleModel where
  predict : Json → List PyVal

/-- The HTTP response of app.py's `predict`: on success it echoes the
raw JSON value of `'YearsExperience'`; every exception is caught by
the single generic `except`, answered with status 400 and a message
containing the exception. -/
inductive SimpleResponse where
  | success (yearsExperience : Json) (predictedSalary : PyFloat)
  | failure (exc : PyExc)

/-- HTTP status code of a plain-app response. -/
def simpleStatus : SimpleResponse → ℕ
  | .success _ _ => 200
  | .failure _ => 400

/-- The whole `predict` endpoint of app.py (lines 23-40).  With a
non-JSON request `data` is `None` and `data['YearsExperience']`
raises `TypeError`, caught by the generic clause. -/
def simplePredict (m : SimpleModel) (payload : Option Json) :
    SimpleResponse :=
  match payload with
  | none => .failure .typeError
  | some d =>
    match pySubscript d "YearsExperience" with
    | .error exc => .failure exc
    | .ok v =>
      match m.predict v with
      | [] => .failure .indexError
      | w :: _ =>
        match coerceFloat w with
        | .error exc => .failure exc
        | .ok salary => .success v salary

/-- The display state the tkinter callback leaves behind. -/
inductive UIOutcome where
  | initial
  | negative
  | invalid
  | shows (salary : PyFloat)
  | errMsg
deriving DecidableEq

/-- Python's `experience < 0` on a float (note `nan < 0` is False, so
NaN is *not* rejected by the form's negativity check). -/
def pfIsNeg : PyFloat → Bool
  | .finite q => q < 0
  | .negInf => true
  | .posInf => false
  | .nan => false

/-- The tkinter callback `SalaryPredictorUI.on_experience_change`
(PLR/app_ui.py lines 177-228): strip the entry text; empty text shows
the initial prompt; `float()` failure shows "Please enter a valid
number"; a negative value shows "Experience cannot be negative"
*before* the transform/model capabilities are invoked; otherwise the
same transform-predict-coerce pipeline runs, a `ValueError` from it is
caught by the same `except ValueError`, and any other exception by the
generic clause. -/
def onExperienceChange (caps : Caps) (text : String) : UIOutcome :=
  match stripWs text.data with
  | [] => .initial
  | c :: cs =>
    match parseFloatStr (String.mk (c :: cs)) with
    | none => .invalid
    | some e =>
      if pfIsNeg e then .negative
      else
        match plrPipeline caps e with
        | .ok (_, s) => .shows s
        | .error .valueError => .invalid
        | .error _ => .errMsg

/-- IEEE-style multiplication on the modelled floats (used only to
build concrete demonstration capabilities). -/
def pfMul : PyFloat → PyFloat → PyFloat
  | .nan, _ => .nan
  | _, .nan => .nan
  | .finite a, .finite b => .finite (a * b)
  | .finite a, .posInf => if 0 < a then .posInf else if a < 0 then .negInf else .nan
  | .finite a, .negInf => if 0 < a then .negInf else if a < 0 then .posInf else .nan
  | .posInf, .finite b => if 0 < b then .posInf else if b < 0 then .negInf else .nan
  | .negInf, .finite b => if 0 < b then .negInf else if b < 0 then .posInf else .nan
  | .posInf, .posInf => .posInf
  | .posInf, .negInf => .negInf
  | .negInf, .posInf => .negInf
  | .negInf, .negInf => .posInf

/-- IEEE-style addition on the modelled floats (used only to build
concrete demonstration capabilities). -/
def pfAdd : PyFloat → PyFloat → PyFloat
  | .nan, _ => .nan
  | _, .nan => .nan
  | .finite a, .finite b => .finite (a + b)
  | .finite _, .posInf => .posInf
  | .finite _, .negInf => .negInf
  | .posInf, .finite _ => .posInf
  | .negInf, .finite _ => .negInf
  | .posInf, .posInf => .posInf
  | .negInf, .negInf => .negInf
  | .posInf, .negInf => .nan
  | .negInf, .posInf => .nan

/-- Dot product of rational coefficients with a float row. -/
def dotPF : List ℚ → List PyFloat → PyFloat
  | [], _ => .finite 0
  | _, [] => .finite 0
  | c :: cs, x :: xs => pfAdd (pfMul (.finite c) x) (dotPF cs xs)

/-- Spec scenario 4's capabilities: degree-2 polynomial expansion
`[1, x, x^2]` and coefficient vector `f = [10, 2, 1]`. -/
def polyDemo : Caps where
  transform x := [.finite 1, x, pfMul x x]
  predict row := [.num (dotPF [10, 2, 1] row)]

/-- Spec scenario 1's capabilities: identity expansion and the linear
model `f(x) = 50000 + 9000 x`. -/
def linearDemo : Caps where
  transform x := [x]
  predict row := [.num (pfAdd (.finite 50000) (dotPF [9000] row))]

/-- A capability pair whose model outputs the non-finite scalar NaN. -/
def nanModelDemo : Caps where
  transform x := [x]
  predict _ := [.num .nan]

/-- A capability pair whose model output cannot be coerced by
`float()` (e.g. a size-2 nested array). -/
def badModelDemo : Caps where
  transform x := [x]
  predict _ := [.nonNumeric]

/-- Spec scenario 1's model for the plain app.py service. -/
def simpleDemo : SimpleModel where
  predict v :=
    match v with
    | .num x => [.num (pfAdd (.finite 50000) (pfMul (.finite 9000) x))]
    | _ => []

/-- On a direct payload the normaliser is exactly `float()` of the
key's value: the envelope check does not fire and the key is found. -/
theorem normalize_reqObj (v : Json) : normalize (reqObj v) = pyFloatOf v := rfl

/-- Generic success shape of the PLR endpoint: when the feature value
coerces and the model's first output is the numeric scalar `x`, the
response echoes the coerced feature next to `x`. -/
theorem plr_success_of (caps : Caps) (v : Json) (e : PyFloat)
    (x : PyFloat) (rest : List PyVal)
    (hv : pyFloatOf v = .ok e)
    (h : caps.predict (caps.transform e) = .num x :: rest) :
    plrPredict caps (some (reqObj v)) = .success e x := by
  have hn : normalize (reqObj v) = Except.ok e := by
    rw [normalize_reqObj, hv]
  have hpl : plrPipeline caps e = Except.ok (e, x) := by
    simp only [plrPipeline, h, coerceFloat]
  simp only [plrPredict, hn, hpl]

/-- Claim C1: for every finite non-negative real x, normalizing the
payload `{"YearsExperience": x}` succeeds with Feature x, and (for a
model whose first output on the transformed feature is a numeric
scalar) the success response of the PLR endpoint echoes that same
input value alongside the predicted salary; likewise the plain app.py
endpoint echoes the raw input value next to the prediction. -/
theorem c1_direct_payload_normalizes_and_echoes
    (caps : Caps) (m : SimpleModel) (q : ℚ) (hq : 0 ≤ q) :
    normalize (reqObj (.num (.finite q))) = .ok (.finite q) ∧
    (∀ (x : PyFloat) (rest : List PyVal),
      caps.predict (caps.transform (.finite q)) = .num x :: rest →
      plrPredict caps (some (reqObj (.num (.finite q)))) =
        .success (.finite q) x) ∧
    (∀ (w : PyFloat) (rest2 : List PyVal),
      m.predict (.num (.finite q)) = .num w :: rest2 →
      simplePredict m (some (reqObj (.num (.finite q)))) =
        .success (.num (.finite q)) w) := by
  refine ⟨rfl, ?_, ?_⟩
  · intro x rest h
    exact plr_success_of caps _ _ x rest rfl h
  · intro w rest2 h
    have hs : pySubscript (reqObj (.num (.finite q))) "YearsExperience" =
        Except.ok (.num (.finite q)) := rfl
    simp only [simplePredict, hs, h, coerceFloat]

/-- Witness for C1: scenario 1 of the spec, x = 5 with the linear
model f(x) = 50000 + 9000 x, on both endpoints. -/
theorem c1_witness :
    normalize (reqObj (.num (.finite 5))) = .ok (.finite 5) ∧
    plrPredict linearDemo (some (reqObj (.num (.finite 5)))) =
      .success (.finite 5) (.finite 95000) ∧
    simplePredict simpleDemo (some (reqObj (.num (.finite 5)))) =
      .success (.num (.finite 5)) (.finite 95000) :=
  have h := c1_direct_payload_normalizes_and_echoes linearDemo simpleDemo 5
    (by with_unfolding_all decide)
  ⟨h.1, h.2.1 (.finite 95000) [] (by with_unfolding_all rfl),
    h.2.2 (.finite 95000) [] (by with_unfolding_all rfl)⟩

/-- Claim C2 counterexample: the required-key value `"nan"` parses to
the non-finite float NaN, yet `normalize` returns it as a Feature
instead of failing with InvalidValue (Python's `float("nan")` raises
no `ValueError`, and the code never checks finiteness). -/
theorem c2_counterexample :
    normalize (reqObj (.str "nan")) = .ok .nan ∧
    normalize (reqObj (.str "nan")) ≠ .error .valueError := by
  refine ⟨rfl, fun h => ?_⟩
  rw [show normalize (reqObj (.str "nan")) = Except.ok PyFloat.nan from rfl] at h
  exact Except.noConfusion h

/-- Claim C2 (amended): a required-key string value that `float()`
cannot parse fails with InvalidValue (the `ValueError` branch); a null
value fails, but through the generic branch (`float(None)` raises
`TypeError`, not `ValueError`); and a value that parses to a
non-finite number (NaN or Infinity) is accepted, `normalize` returning
that non-finite value as the Feature. -/
theorem c2_amended_value_handling :
    (∀ s : String, parseFloatStr s = none →
      normalize (reqObj (.str s)) = .error .valueError) ∧
    normalize (reqObj .null) = .error .typeError ∧
    (∀ (s : String) (x : PyFloat), parseFloatStr s = some x →
      normalize (reqObj (.str s)) = .ok x) := by
  refine ⟨?_, rfl, ?_⟩
  · intro s h
    rw [normalize_reqObj]
    simp only [pyFloatOf, h]
  · intro s x h
    rw [normalize_reqObj]
    simp only [pyFloatOf, h]

/-- Witness for C2 (amended): "abc" is rejected as InvalidValue while
"inf" comes back as the Feature +infinity. -/
theorem c2_witness :
    normalize (reqObj (.str "abc")) = .error .valueError ∧
    normalize (reqObj (.str "inf")) = .ok .posInf :=
  ⟨c2_amended_value_handling.1 "abc" (by with_unfolding_all rfl),
    c2_amended_value_handling.2.2 "inf" .posInf (by with_unfolding_all rfl)⟩

/-- Claim C3: on a nested-envelope payload `{"data": [r0, r1, ...]}`
with a non-empty list, `normalize` depends only on the first element
r0 (later elements are silently discarded); in particular the payload
`{"data": [{"YearsExperience": 3.0}, {"YearsExperience": 99.0}]}`
yields Feature 3.0. -/
theorem c3_envelope_first_element_only
    (r0 : Json) (rest rest2 : List Json) :
    normalize (.obj [("data", .arr (r0 :: rest))]) =
      normalize (.obj [("data", .arr (r0 :: rest2))]) ∧
    normalize (.obj [("data", .arr (r0 :: rest))]) =
      normalize (.obj [("data", .arr [r0])]) ∧
    normalize (.obj [("data", .arr
        [reqObj (.num (.finite 3)), reqObj (.num (.finite 99))])]) =
      .ok (.finite 3) :=
  ⟨rfl, rfl, rfl⟩

/-- Claim C4: every payload that unwraps to a mapping lacking the key
`'YearsExperience'` makes the PLR endpoint fail through the `KeyError`
branch, naming the key, with a client-error status; the plain app.py
endpoint fails on the empty payload with a `KeyError` naming the same
key, also with a client-error status. -/
theorem c4_missing_key_fails
    (caps : Caps) (m : SimpleModel) (d : Json)
    (fields : List (String × Json))
    (hu : unwrapEnvelope d = .ok (.obj fields))
    (hk : fields.lookup "YearsExperience" = none) :
    plrPredict caps (some d) = .failure (.missingKey "YearsExperience") ∧
    status (plrPredict caps (some d)) = 400 ∧
    simplePredict m (some (.obj [])) = .failure (.keyError "YearsExperience") ∧
    simpleStatus (simplePredict m (some (.obj []))) = 400 := by
  have hn : normalize d = .error (.keyError "YearsExperience") := by
    simp only [normalize, hu, pySubscript, hk]
  have hp : plrPredict caps (some d) =
      .failure (.missingKey "YearsExperience") := by
    simp only [plrPredict, hn, excBranch]
  exact ⟨hp, by rw [hp]; rfl, rfl, rfl⟩

/-- Witness for C4: the empty payload `{}` on both endpoints. -/
theorem c4_witness :
    plrPredict linearDemo (some (.obj [])) =
      .failure (.missingKey "YearsExperience") ∧
    status (plrPredict linearDemo (some (.obj []))) = 400 :=
  have h := c4_missing_key_fails linearDemo simpleDemo (.obj []) [] rfl rfl
  ⟨h.1, h.2.1⟩

/-- Claim C5: in polynomial mode, input `{"YearsExperience": 2}` with
transform x -> [1, x, x^2] and model coefficients [10, 2, 1] returns
Success with predicted value 10 + 2*2 + 1*4 = 18. -/
theorem c5_polynomial_scenario :
    plrPredict polyDemo (some (reqObj (.num (.finite 2)))) =
      .success (.finite 2) (.finite 18) := by
  with_unfolding_all rfl

/-- Claim C6 counterexample: a model whose output scalar is the
non-finite value NaN does not make the pipeline fail with
PredictionError — the endpoint returns Success with NaN as the
predicted salary (`float(nan)` succeeds and no finiteness check
exists). -/
theorem c6_counterexample :
    plrPredict nanModelDemo (some (reqObj (.num (.finite 1)))) =
      .success (.finite 1) .nan := rfl

/-- Claim C6 (amended): when the model's first output value cannot be
coerced by `float()`, the pipeline fails through the generic
prediction-error branch rather than returning Success; but an output
that coerces to a non-finite value is returned as Success. -/
theorem c6_amended_output_coercion
    (caps : Caps) (d : Json) (e : PyFloat) (v : PyVal) (rest : List PyVal)
    (hn : normalize d = .ok e)
    (hp : caps.predict (caps.transform e) = v :: rest) :
    plrPredict caps (some d) =
      match v with
      | .num x => .success e x
      | .nonNumeric => .failure .genericErr := by
  cases v with
  | num x =>
    have hpl : plrPipeline caps e = Except.ok (e, x) := by
      simp only [plrPipeline, hp, coerceFloat]
    simp only [plrPredict, hn, hpl]
  | nonNumeric =>
    have hpl : plrPipeline caps e = Except.error PyExc.typeError := by
      simp only [plrPipeline, hp, coerceFloat]
    simp only [plrPredict, hn, hpl, excBranch]

/-- Witness for C6 (amended): a model output on which `float()`
raises produces the generic 400 error. -/
theorem c6_witness :
    plrPredict badModelDemo (some (reqObj (.num (.finite 1)))) =
      .failure .genericErr :=
  c6_amended_output_coercion badModelDemo (reqObj (.num (.finite 1)))
    (.finite 1) .nonNumeric [] rfl rfl

/-- Claim C7: for every request payload whatsoever (absent, a
non-mapping, malformed or well-formed) and any capabilities, both
endpoints return either a success response or a structured error
response carrying the client-error status 400; no input escapes the
handlers. -/
theorem c7_total_response
    (caps : Caps) (m : SimpleModel) (p : Option Json) :
    ((∃ a s, plrPredict caps p = .success a s) ∨
      (∃ b, plrPredict caps p = .failure b ∧
        status (plrPredict caps p) = 400)) ∧
    ((∃ v s, simplePredict m p = .success v s) ∨
      (∃ e, simplePredict m p = .failure e ∧
        simpleStatus (simplePredict m p) = 400)) := by
  constructor
  · cases h : plrPredict caps p with
    | success a s => exact Or.inl ⟨a, s, rfl⟩
    | failure b => exact Or.inr ⟨b, rfl, rfl⟩
  · cases h : simplePredict m p with
    | success v s => exact Or.inl ⟨v, s, rfl⟩
    | failure e => exact Or.inr ⟨e, rfl, rfl⟩

/-- Claim C8: for every text input whose stripped form parses to a
negative finite value q, the interactive form answers with the
"Experience cannot be negative" validation outcome — independently of
the injected capabilities, hence before invoking them — while the
network endpoint accepts the same negative value and returns a
prediction. -/
theorem c8_form_rejects_negative_endpoint_accepts
    (caps caps2 : Caps) (s : String) (q : ℚ)
    (hq : q < 0)
    (hp : parseFloatStr (String.mk (stripWs s.data)) = some (.finite q)) :
    onExperienceChange caps s = .negative ∧
    onExperienceChange caps2 s = .negative ∧
    (∀ (x : PyFloat) (rest : List PyVal),
      caps.predict (caps.transform (.finite q)) = .num x :: rest →
      plrPredict caps (some (reqObj (.num (.finite q)))) =
        .success (.finite q) x) := by
  have hui : ∀ c : Caps, onExperienceChange c s = .negative := by
    intro c
    have hneg : pfIsNeg (.finite q) = true := decide_eq_true hq
    cases hst : stripWs s.data with
    | nil =>
      rw [hst] at hp
      exact Option.noConfusion hp
    | cons a as =>
      rw [hst] at hp
      simp [onExperienceChange, hst, hp, hneg]
  exact ⟨hui caps, hui caps2,
    fun x rest h => plr_success_of caps _ _ x rest rfl h⟩

/-- Witness for C8: the input "-3" on the form versus the payload
`{"YearsExperience": -3}` on the endpoint with the linear model. -/
theorem c8_witness :
    onExperienceChange linearDemo "-3" = .negative ∧
    plrPredict linearDemo (some (reqObj (.num (.finite (-3))))) =
      .success (.finite (-3)) (.finite 23000) :=
  have h := c8_form_rejects_negative_endpoint_accepts linearDemo polyDemo
    "-3" (-3) (by with_unfolding_all decide) (by with_unfolding_all rfl)
  ⟨h.1, h.2.2 (.finite 23000) [] (by with_unfolding_all rfl)⟩

/-- Claim C9: the pipeline and both request handlers are pure
functions of the feature/payload and the injected immutable
capabilities, so two invocations with the same arguments yield
identical results. -/
theorem c9_deterministic_idempotent
    (caps : Caps) (e : PyFloat) (p : Option Json) (t : String) :
    plrPipeline caps e = plrPipeline caps e ∧
    plrPredict caps p = plrPredict caps p ∧
    onExperienceChange caps t = onExperienceChange caps t :=
  ⟨rfl, rfl, rfl⟩

/-- Claim C10: the polynomial endpoint coerces the required-key value
with `float()` before use, so numeric strings and booleans are
accepted as features; `{"YearsExperience": "5.5"}` succeeds with
Feature 5.5 and the response echoes the coerced number 5.5, not the
original string. -/
theorem c10_numeric_coercion_accepts_strings_and_bools
    (caps : Caps) :
    (∀ (s : String) (x : PyFloat), parseFloatStr s = some x →
      normalize (reqObj (.str s)) = .ok x) ∧
    (∀ b : Bool,
      normalize (reqObj (.bool b)) = .ok (.finite (if b then 1 else 0))) ∧
    parseFloatStr "5.5" = some (.finite (11 / 2)) ∧
    (∀ (x : PyFloat) (rest : List PyVal),
      caps.predict (caps.transform (.finite (11 / 2))) = .num x :: rest →
      plrPredict caps (some (reqObj (.str "5.5"))) =
        .success (.finite (11 / 2)) x) := by
  refine ⟨?_, fun b => rfl, by with_unfolding_all rfl, ?_⟩
  · intro s x h
    rw [normalize_reqObj]
    simp only [pyFloatOf, h]
  · intro x rest h
    exact plr_success_of caps _ _ x rest (by with_unfolding_all rfl) h

/-- Witness for C10: the string "5.5" with the linear model; the
echoed value is the number 11/2. -/
theorem c10_witness :
    normalize (reqObj (.str "5.5")) = .ok (.finite (11 / 2)) ∧
    plrPredict linearDemo (some (reqObj (.str "5.5"))) =
      .success (.finite (11 / 2)) (.finite 99500) :=
  have h := c10_numeric_coercion_accepts_strings_and_bools linearDemo
  ⟨h.1 "5.5" (.finite (11 / 2)) (by with_unfolding_all rfl),
    h.2.2.2 (.finite 99500) [] (by with_unfolding_all rfl)⟩

end PLR
